import Mathlib

/-
Shallow embedding of the OAuth local-callback subsystem of
src/src-tauri/src/lib.rs (mokuro-reader, Tauri backend).

The Rust source is modelled as follows:
- Strings are Lean `String`s; all request parsing is done on `List Char`
  (the source operates on ASCII request bytes; for the ASCII data relevant
  here, Rust byte indexing and Lean char indexing coincide).
- The worker thread spawned by `start_oauth_server` (lib.rs lines 82-177)
  becomes the pure function `workerThread`: it takes the request text that
  was read from the socket, the pending-store contents at snapshot time,
  and an oracle for `exchange_code_for_tokens`, and returns the emitted
  events, the rendered page, the exchange calls made, the store contents
  after the thread finishes, and how many times the store was cleared.
- Network I/O in `exchange_code_for_tokens` / `refresh_oauth_token` is an
  oracle `http : List (String × String) → HttpResult` receiving exactly
  the form fields the source passes to `.form(&params)`; serde JSON
  decoding is an oracle `decode : String → Option TokenResponse`.
-/

namespace MokuroOAuth

/-- Mirrors `struct OAuthState` (lib.rs lines 10-17): the pending OAuth
request stored by `start_oauth_server` step 1. -/
structure OAuthState where
  state : String
  code_verifier : String
  client_id : String
  client_secret : String
  redirect_uri : String
deriving DecidableEq, Repr

/-- Mirrors `struct TokenResponse` (lib.rs lines 26-32), the decoded JSON
body of a successful token-endpoint response. `expires_in : u64` is a Nat;
no claim depends on 64-bit wraparound. -/
structure TokenResponse where
  access_token : String
  expires_in : Nat
  refresh_token : Option String
  token_type : String
deriving DecidableEq, Repr

/-- Mirrors `struct TokenPayload` (lib.rs lines 34-39), the payload of the
oauth-token notification. -/
structure TokenPayload where
  access_token : String
  expires_in : Nat
  refresh_token : Option String
deriving DecidableEq, Repr

/-- Mirrors `struct RefreshResponse` (lib.rs lines 41-45). -/
structure RefreshResponse where
  access_token : String
  expires_in : Nat
deriving DecidableEq, Repr

/-- A notification emitted to the host via `app.emit` (lib.rs lines 118,
145, 150, 156, 161): either oauth-token with a payload or oauth-error
with a message. -/
inductive Event where
  | oauthToken (payload : TokenPayload)
  | oauthError (message : String)
deriving DecidableEq, Repr

/-- The page written back to the browser: `send_success_response`
(lib.rs lines 264-292, fixed HTTP 200 page) or `send_error_response`
(lib.rs lines 294-323, HTTP 400 page embedding the message verbatim). -/
inductive Page where
  | success
  | failure (message : String)
deriving DecidableEq, Repr

/-- One invocation of `exchange_code_for_tokens` with the arguments the
worker passes at lib.rs lines 128-134. -/
structure ExchangeCall where
  code : String
  code_verifier : String
  client_id : String
  client_secret : String
  redirect_uri : String
deriving DecidableEq, Repr

/-- Outcome of the blocking HTTP POST in `exchange_code_for_tokens` /
`refresh_oauth_token`: transport failure (`send()` returning Err), or a
response with a status code and a body. -/
inductive HttpResult where
  | transportError (e : String)
  | response (status : Nat) (body : String)

/-- `reqwest::StatusCode::is_success()`: status in 200..=299. -/
def statusIsSuccess (status : Nat) : Bool :=
  200 ≤ status && status ≤ 299

/- ---------------- Request parsing (lib.rs lines 86-106) ---------------- -/

/-- Rust `str::split(sep)` on a char list: splits at every occurrence of
the separator, keeping empty pieces (accumulator-based, mirrors a left
fold over the bytes). -/
def splitOnCharAux (sep : Char) : List Char → List Char → List (List Char)
  | [], acc => [acc.reverse]
  | c :: rest, acc =>
      if c = sep then acc.reverse :: splitOnCharAux sep rest []
      else splitOnCharAux sep rest (c :: acc)

/-- Rust `str::split(sep)`: `splitOnChar sep cs` lists the
separator-delimited pieces of `cs`, empty pieces included. -/
def splitOnChar (sep : Char) (cs : List Char) : List (List Char) :=
  splitOnCharAux sep cs []

/-- Rust `p.splitn(2, char)` viewed as a key/value splitter: splits at the
FIRST occurrence of the separator; `none` when the separator is absent
(the `filter_map` at lib.rs lines 102-105 then drops the entry). -/
def splitFirstChars (sep : Char) : List Char → Option (List Char × List Char)
  | [] => none
  | c :: rest =>
      if c = sep then some ([], rest)
      else (splitFirstChars sep rest).map (fun kv => (c :: kv.1, kv.2))

/-- One query entry as the `filter_map` closure (lib.rs lines 102-105)
produces it: split on the first separator, dropped if there is none. -/
def entryToPair (e : String) : Option (String × String) :=
  (splitFirstChars '=' e.data).map (fun kv => (String.mk kv.1, String.mk kv.2))

/-- The query-string parser at lib.rs lines 100-106: split the query on
the amp separator, split each entry on its first equals sign, drop entries
without one. -/
def parseQuery (q : String) : List (String × String) :=
  (splitOnChar '&' q.data).map String.mk |>.filterMap entryToPair

/-- `HashMap::get` on the map collected at lib.rs line 106: with duplicate
keys, `collect` into a HashMap keeps the LAST inserted pair, so lookup
returns the value of the last entry with the given key. -/
def getParam (ps : List (String × String)) (k : String) : Option String :=
  match ps with
  | [] => none
  | (k1, v) :: rest =>
      match getParam rest k with
      | some v2 => some v2
      | none => if k1 = k then some v else none

/-- Rust `request.lines().next()`: characters before the first newline
with a trailing carriage return stripped; the whole string when it has no
newline (then no carriage-return stripping, as in `str::lines`); `none`
for the empty string. -/
def takeBeforeNl : List Char → Option (List Char)
  | [] => none
  | c :: rest =>
      if c = '\n' then some [] else (takeBeforeNl rest).map (c :: ·)

/-- First line of the request text, as `request.lines().next()` yields it
(lib.rs line 90). -/
def firstLine (s : String) : Option String :=
  match s.data with
  | [] => none
  | cs =>
      match takeBeforeNl cs with
      | some l => some (String.mk (if l.getLast? = some '\r' then l.dropLast else l))
      | none => some (String.mk cs)

/-- Rust `split_whitespace` (lib.rs line 91): maximal runs of
non-whitespace characters, empty runs skipped. -/
def splitWsAux : List Char → List Char → List String
  | [], [] => []
  | [], acc => [String.mk acc.reverse]
  | c :: rest, acc =>
      if c.isWhitespace then
        match acc with
        | [] => splitWsAux rest []
        | _ => String.mk acc.reverse :: splitWsAux rest []
      else splitWsAux rest (c :: acc)

/-- `path_line.split_whitespace().collect()` (lib.rs line 91). -/
def splitWhitespace (s : String) : List String :=
  splitWsAux s.data []

/-- `path.starts_with("/callback?")` (lib.rs line 98), done on chars with
structural recursion so that concrete instances compute. -/
def startsWithCallback : List Char → Bool
  | '/' :: 'c' :: 'a' :: 'l' :: 'l' :: 'b' :: 'a' :: 'c' :: 'k' :: '?' :: _ => true
  | _ => false

/- ---------------- Token exchange (lib.rs lines 182-220) ---------------- -/

/-- The form fields built at lib.rs lines 191-202: the five base fields,
plus client_secret only when it is non-empty. -/
def exchangeFormParams (code code_verifier client_id client_secret redirect_uri : String) :
    List (String × String) :=
  let base := [("code", code), ("client_id", client_id),
    ("code_verifier", code_verifier), ("redirect_uri", redirect_uri),
    ("grant_type", "authorization_code")]
  if !client_secret.isEmpty then base ++ [("client_secret", client_secret)] else base

/-- `exchange_code_for_tokens` (lib.rs lines 182-220). `http` stands for
the blocking POST of the form fields to TOKEN_ENDPOINT; `decode` for
serde JSON decoding of the body into TokenResponse. The non-2xx error
message is built from the status alone (the body is only logged); the
numeric status stands in for the Display form of `reqwest::StatusCode`. -/
def exchange_code_for_tokens (code code_verifier client_id client_secret redirect_uri : String)
    (http : List (String × String) → HttpResult)
    (decode : String → Option TokenResponse) : Except String TokenResponse :=
  match http (exchangeFormParams code code_verifier client_id client_secret redirect_uri) with
  | .transportError e => .error ("Request failed: " ++ e)
  | .response status body =>
      if !statusIsSuccess status then
        .error ("Token exchange failed: " ++ toString status)
      else
        match decode body with
        | some tokens => .ok tokens
        | none => .error "Failed to parse token response"

/- ---------------- Worker thread (lib.rs lines 82-177) ---------------- -/

/-- Observable outcome of one run of the worker thread closure: the
notifications emitted to the host (in order), the page written to the
browser (none when no response was sent), the calls made to
`exchange_code_for_tokens` (in order), the pending-store contents when
the thread exits, and how many times the `*guard = None` clear at
lib.rs lines 173-176 ran. -/
structure WorkerResult where
  events : List Event
  page : Option Page
  exchangeCalls : List ExchangeCall
  store : Option OAuthState
  clears : Nat
deriving DecidableEq, Repr

/-- The arguments the worker passes to `exchange_code_for_tokens`
(lib.rs lines 128-134): the callback's code plus the snapshot's fields. -/
def mkCall (oauth : OAuthState) (code : String) : ExchangeCall :=
  ⟨code, oauth.code_verifier, oauth.client_id, oauth.client_secret, oauth.redirect_uri⟩

/-- The TokenPayload built from a successful exchange response
(lib.rs lines 139-143). -/
def payloadOf (tokens : TokenResponse) : TokenPayload :=
  ⟨tokens.access_token, tokens.expires_in, tokens.refresh_token⟩

/-- The body of lib.rs lines 114-163: query parameters are already
parsed, the snapshot of the store has been taken, and the path was a
callback path. Every branch of this part falls through to the final
clear (store := none, clears := 1) EXCEPT the state-mismatch branch,
whose `return` at lib.rs line 120 exits the thread closure before the
clear runs, leaving the snapshot still stored. -/
def handleCallback (query : String) (store : Option OAuthState)
    (exchange : ExchangeCall → Except String TokenResponse) : WorkerResult :=
  let params := parseQuery query
  match store with
  | some oauth =>
      if getParam params "state" ≠ some oauth.state then
        { events := [.oauthError "State mismatch"],
          page := some (.failure "State mismatch"),
          exchangeCalls := [], store := some oauth, clears := 0 }
      else
        match getParam params "code" with
        | some code =>
            let call := mkCall oauth code
            match exchange call with
            | .ok tokens =>
                { events := [.oauthToken (payloadOf tokens)],
                  page := some .success,
                  exchangeCalls := [call], store := none, clears := 1 }
            | .error e =>
                { events := [.oauthError e], page := some (.failure e),
                  exchangeCalls := [call], store := none, clears := 1 }
        | none =>
            match getParam params "error" with
            | some err =>
                { events := [.oauthError err], page := some (.failure err),
                  exchangeCalls := [], store := none, clears := 1 }
            | none =>
                { events := [], page := none, exchangeCalls := [],
                  store := none, clears := 1 }
  | none =>
      { events := [.oauthError "No pending OAuth request"],
        page := some (.failure "No pending OAuth request"),
        exchangeCalls := [], store := none, clears := 1 }

/-- The worker thread closure (lib.rs lines 82-177) after a connection
was accepted and `request` was read from it: parse the request line,
check the callback path, handle the callback, and clear the store on
every path except the state-mismatch early return. `store` is the
pending-store contents when the snapshot at lib.rs lines 109-112 is
taken (the single-flow sequential case: no interleaved writer). -/
def workerThread (request : String) (store : Option OAuthState)
    (exchange : ExchangeCall → Except String TokenResponse) : WorkerResult :=
  match firstLine request with
  | none =>
      { events := [], page := none, exchangeCalls := [], store := none, clears := 1 }
  | some pathLine =>
      match splitWhitespace pathLine with
      | _ :: path :: _ =>
          if startsWithCallback path.data then
            handleCallback (String.mk (path.data.drop 10)) store exchange
          else
            { events := [], page := some (.failure "Invalid request"),
              exchangeCalls := [], store := none, clears := 1 }
      | _ =>
          { events := [], page := none, exchangeCalls := [], store := none, clears := 1 }

/- ---------------- start_oauth_server (lib.rs lines 47-180) ------------- -/

/-- Outcome of the synchronous part of `start_oauth_server`: its return
value, the pending-store contents when it returns, and whether a worker
thread was spawned. -/
structure StartResult where
  ret : Except String Unit
  store : Option OAuthState
  workerSpawned : Bool
deriving Repr

/-- The synchronous part of `start_oauth_server` (lib.rs lines 47-179):
store the pending request unconditionally (lines 58-68), then bind the
listener (lines 71-72). `bind` is the outcome of `TcpListener::bind`:
an error message, or success. On bind failure the `?` returns the error
with no rollback of the store and no thread spawned. -/
def start_oauth_server (state : String) (port : Nat)
    (code_verifier client_id client_secret redirect_uri : String)
    (bind : Option String) : StartResult :=
  let stored : OAuthState :=
    { state := state, code_verifier := code_verifier, client_id := client_id,
      client_secret := client_secret, redirect_uri := redirect_uri }
  match bind with
  | some e =>
      { ret := .error ("Failed to bind to port " ++ toString port ++ ": " ++ e),
        store := some stored, workerSpawned := false }
  | none =>
      { ret := .ok (), store := some stored, workerSpawned := true }

/- ---------------- refresh_oauth_token (lib.rs lines 222-262) ----------- -/

/-- The form fields built at lib.rs lines 230-239: refresh_token,
client_id, grant_type, plus client_secret only when non-empty. -/
def refreshFormParams (refresh_token client_id client_secret : String) :
    List (String × String) :=
  let base := [("refresh_token", refresh_token), ("client_id", client_id),
    ("grant_type", "refresh_token")]
  if !client_secret.isEmpty then base ++ [("client_secret", client_secret)] else base

/-- `refresh_oauth_token` (lib.rs lines 222-262), with the same oracles
as `exchange_code_for_tokens`. -/
def refresh_oauth_token (refresh_token client_id client_secret : String)
    (http : List (String × String) → HttpResult)
    (decode : String → Option TokenResponse) : Except String RefreshResponse :=
  match http (refreshFormParams refresh_token client_id client_secret) with
  | .transportError e => .error ("Request failed: " ++ e)
  | .response status body =>
      if !statusIsSuccess status then
        .error ("Token refresh failed: " ++ toString status)
      else
        match decode body with
        | some tokens =>
            .ok { access_token := tokens.access_token, expires_in := tokens.expires_in }
        | none => .error "Failed to parse token response"

/- ---------------- Concrete fixtures for witnesses ---------------- -/

/-- A concrete pending request (the spec's worked example: state abc,
empty client secret, public PKCE client). -/
def oauthA : OAuthState :=
  { state := "abc", code_verifier := "verifier1", client_id := "client1",
    client_secret := "", redirect_uri := "http://127.0.0.1:17342/callback" }

/-- A concrete successful token response. -/
def tokensA : TokenResponse :=
  { access_token := "tok", expires_in := 3600, refresh_token := none,
    token_type := "Bearer" }

/-- Exchange oracle that always succeeds with tokensA. -/
def exchangeOk : ExchangeCall → Except String TokenResponse :=
  fun _ => .ok tokensA

/-- Exchange oracle that always fails. -/
def exchangeFail : ExchangeCall → Except String TokenResponse :=
  fun _ => .error "boom"

/- ---------------- Theorems ---------------- -/

/-- Claim C9: when binding the TCP listener fails, `start_oauth_server`
returns the bind error, but the pending request stored in step 1 is still
in the store: no rollback or clear happens, and no worker is spawned. -/
theorem claim9_bind_failure_keeps_store (state : String) (port : Nat)
    (code_verifier client_id client_secret redirect_uri e : String) :
    (start_oauth_server state port code_verifier client_id client_secret
        redirect_uri (some e)).ret =
      Except.error ("Failed to bind to port " ++ toString port ++ ": " ++ e) ∧
    (start_oauth_server state port code_verifier client_id client_secret
        redirect_uri (some e)).store =
      some { state := state, code_verifier := code_verifier, client_id := client_id,
             client_secret := client_secret, redirect_uri := redirect_uri } ∧
    (start_oauth_server state port code_verifier client_id client_secret
        redirect_uri (some e)).workerSpawned = false :=
  ⟨rfl, rfl, rfl⟩

/-- Claim C7: both the code-exchange form body and the refresh form body
contain the client_secret field exactly when the supplied client secret
is non-empty, with that secret as its value; with an empty secret the
field is absent from the form entirely. -/
theorem claim7_client_secret_iff
    (code code_verifier client_id client_secret redirect_uri refresh_token : String) :
    ((exchangeFormParams code code_verifier client_id client_secret redirect_uri).filter
        (fun p => p.1 == "client_secret") =
      if client_secret = "" then [] else [("client_secret", client_secret)]) ∧
    ((refreshFormParams refresh_token client_id client_secret).filter
        (fun p => p.1 == "client_secret") =
      if client_secret = "" then [] else [("client_secret", client_secret)]) := by
  by_cases h : client_secret = ""
  · have he : client_secret.isEmpty = true := (String.isEmpty_iff client_secret).mpr h
    simp [exchangeFormParams, refreshFormParams, he, h, List.filter]
  · have he : client_secret.isEmpty = false := by
      cases hb : client_secret.isEmpty
      · rfl
      · exact absurd ((String.isEmpty_iff client_secret).mp hb) h
    simp [exchangeFormParams, refreshFormParams, he, h, List.filter]

/-- Claim C3: when the parsed query state differs from the stored
expected state, no exchange call is made (and the outcome does not depend
on the exchange client at all, so the comparison precedes any use of the
code), exactly one oauth-error notification with message State mismatch
is emitted, and the failure page carrying that message is rendered. -/
theorem claim3_state_mismatch (query : String) (oauth : OAuthState)
    (exchange exchange2 : ExchangeCall → Except String TokenResponse)
    (h : getParam (parseQuery query) "state" ≠ some oauth.state) :
    (handleCallback query (some oauth) exchange).exchangeCalls = [] ∧
    (handleCallback query (some oauth) exchange).events =
      [Event.oauthError "State mismatch"] ∧
    (handleCallback query (some oauth) exchange).page =
      some (Page.failure "State mismatch") ∧
    handleCallback query (some oauth) exchange =
      handleCallback query (some oauth) exchange2 := by
  simp [handleCallback, if_pos h]

/-- Witness for claim C3 at a concrete mismatching callback. -/
theorem claim3_state_mismatch_witness :
    getParam (parseQuery "code=xyz&state=zzz") "state" ≠ some oauthA.state ∧
    (handleCallback "code=xyz&state=zzz" (some oauthA) exchangeFail).events =
      [Event.oauthError "State mismatch"] :=
  ⟨by decide,
   (claim3_state_mismatch "code=xyz&state=zzz" oauthA exchangeFail exchangeOk
      (by decide)).2.1⟩

/-- Claim C5: on a state-matching callback carrying a code, a successful
exchange produces exactly one oauth-token notification whose fields are
copied from the exchange response, the success page, one exchange call,
and a cleared store. -/
theorem claim5_success_flow (query : String) (oauth : OAuthState)
    (code : String) (tokens : TokenResponse)
    (exchange : ExchangeCall → Except String TokenResponse)
    (hstate : getParam (parseQuery query) "state" = some oauth.state)
    (hcode : getParam (parseQuery query) "code" = some code)
    (hex : exchange (mkCall oauth code) = .ok tokens) :
    handleCallback query (some oauth) exchange =
      ⟨[Event.oauthToken (payloadOf tokens)], some Page.success,
        [mkCall oauth code], none, 1⟩ := by
  simp only [handleCallback, hstate, hcode, hex]
  simp

/-- Witness for claim C5: the spec's worked example, a matching callback
with code xyz against a mock returning tokensA. -/
theorem claim5_success_flow_witness :
    getParam (parseQuery "code=xyz&state=abc") "state" = some oauthA.state ∧
    handleCallback "code=xyz&state=abc" (some oauthA) exchangeOk =
      ⟨[Event.oauthToken ⟨"tok", 3600, none⟩], some Page.success,
        [⟨"xyz", "verifier1", "client1", "", "http://127.0.0.1:17342/callback"⟩],
        none, 1⟩ :=
  ⟨by decide,
   claim5_success_flow "code=xyz&state=abc" oauthA "xyz" tokensA exchangeOk
     (by decide) (by decide) rfl⟩

/-- Case analysis of the callback-handling part: every branch clears the
store exactly once and leaves it empty, except the state-mismatch early
return at lib.rs line 120, which exits before the clear at lines 173-176
and leaves the snapshot still stored. -/
theorem handleCallback_clear_cases (query : String) (store : Option OAuthState)
    (exchange : ExchangeCall → Except String TokenResponse) :
    ((handleCallback query store exchange).clears = 1 ∧
      (handleCallback query store exchange).store = none) ∨
    ((handleCallback query store exchange).clears = 0 ∧
      (handleCallback query store exchange).store = store ∧
      (handleCallback query store exchange).events =
        [Event.oauthError "State mismatch"]) := by
  cases store with
  | none => exact Or.inl ⟨rfl, rfl⟩
  | some oauth =>
    by_cases hst : getParam (parseQuery query) "state" = some oauth.state
    · cases hcode : getParam (parseQuery query) "code" with
      | none =>
          cases herr2 : getParam (parseQuery query) "error" with
          | none => left; simp [handleCallback, hst, hcode, herr2]
          | some err => left; simp [handleCallback, hst, hcode, herr2]
      | some code =>
          cases hex : exchange (mkCall oauth code) with
          | ok tokens => left; simp [handleCallback, hst, hcode, hex]
          | error e => left; simp [handleCallback, hst, hcode, hex]
    · right; simp [handleCallback, hst]

/-- Claim C1 (amended): every worker run either executes the final clear
exactly once, leaving the store empty, or it is the state-mismatch early
return, which performs no clear and leaves the stored pending request in
place. -/
theorem claim1_clear_amended (request : String) (store : Option OAuthState)
    (exchange : ExchangeCall → Except String TokenResponse) :
    ((workerThread request store exchange).clears = 1 ∧
      (workerThread request store exchange).store = none) ∨
    ((workerThread request store exchange).clears = 0 ∧
      (workerThread request store exchange).store = store ∧
      (workerThread request store exchange).events =
        [Event.oauthError "State mismatch"]) := by
  unfold workerThread
  split
  · exact Or.inl ⟨rfl, rfl⟩
  · split
    · split
      · exact handleCallback_clear_cases _ _ _
      · exact Or.inl ⟨rfl, rfl⟩
    · exact Or.inl ⟨rfl, rfl⟩

/-- Counterexample to claim C1 as stated: in the state-mismatch
termination path (stored state abc, callback state zzz) the worker does
NOT clear the store — the clear count is 0, not 1, and the pending
request is still stored when the worker exits. -/
theorem claim1_counterexample :
    ¬ ((workerThread "GET /callback?code=xyz&state=zzz HTTP/1.1\r\n"
          (some oauthA) exchangeFail).clears = 1 ∧
       (workerThread "GET /callback?code=xyz&state=zzz HTTP/1.1\r\n"
          (some oauthA) exchangeFail).store = none) := by
  decide

/-- Claim C2 (amended): on a state-matching callback the code parameter
is checked BEFORE the error parameter: whenever the code is present the
exchange is invoked (even if an error parameter is also present, so no
error notification is produced from it), and only when the code is absent
is a present error parameter forwarded verbatim as the single oauth-error
notification with its failure page and no exchange call. -/
theorem claim2_code_before_error (query : String) (oauth : OAuthState)
    (exchange : ExchangeCall → Except String TokenResponse) (code err : String)
    (hstate : getParam (parseQuery query) "state" = some oauth.state) :
    (getParam (parseQuery query) "code" = some code →
      (handleCallback query (some oauth) exchange).exchangeCalls =
        [mkCall oauth code]) ∧
    (getParam (parseQuery query) "code" = none →
      getParam (parseQuery query) "error" = some err →
      (handleCallback query (some oauth) exchange).events = [Event.oauthError err] ∧
      (handleCallback query (some oauth) exchange).exchangeCalls = [] ∧
      (handleCallback query (some oauth) exchange).page = some (Page.failure err)) := by
  constructor
  · intro hcode
    cases hex : exchange (mkCall oauth code) with
    | ok tokens => simp [handleCallback, hstate, hcode, hex]
    | error e => simp [handleCallback, hstate, hcode, hex]
  · intro hcode herr
    simp [handleCallback, hstate, hcode, herr]

/-- Witness for claim C2 (amended) at a concrete error-only callback. -/
theorem claim2_code_before_error_witness :
    getParam (parseQuery "error=denied&state=abc") "state" = some oauthA.state ∧
    (handleCallback "error=denied&state=abc" (some oauthA) exchangeOk).events =
      [Event.oauthError "denied"] :=
  ⟨by decide,
   ((claim2_code_before_error "error=denied&state=abc" oauthA exchangeOk
      "unused" "denied" (by decide)).2 (by decide) (by decide)).1⟩

/-- Counterexample to claim C2 as stated: a state-matching callback
carrying BOTH error and code invokes the exchange (the call list is
non-empty) and forwards no error notification — the code parameter wins,
the opposite of the claimed error-before-code order. -/
theorem claim2_counterexample :
    (handleCallback "code=xyz&state=abc&error=denied" (some oauthA)
        exchangeOk).exchangeCalls ≠ [] ∧
    Event.oauthError "denied" ∉
      (handleCallback "code=xyz&state=abc&error=denied" (some oauthA)
        exchangeOk).events := by
  decide

/-- Claim C4 (amended): on a request whose path does not start with the
callback prefix the worker renders the generic invalid-request failure
page, emits no notification, makes no exchange call, and never reads the
stored pending request (the outcome is the same for every store
contents) — but it DOES clear the pending request store before
terminating, so the store is empty afterwards. -/
theorem claim4_invalid_path_clears (request pathLine w path : String)
    (rest : List String) (store store2 : Option OAuthState)
    (exchange : ExchangeCall → Except String TokenResponse)
    (h1 : firstLine request = some pathLine)
    (h2 : splitWhitespace pathLine = w :: path :: rest)
    (h3 : startsWithCallback path.data = false) :
    workerThread request store exchange =
      ⟨[], some (Page.failure "Invalid request"), [], none, 1⟩ ∧
    workerThread request store exchange = workerThread request store2 exchange := by
  unfold workerThread
  rw [h1]
  simp only [h2, h3]
  exact ⟨rfl, rfl⟩

/-- Witness for claim C4 (amended) at a concrete non-callback request. -/
theorem claim4_invalid_path_clears_witness :
    workerThread "GET /favicon.ico HTTP/1.1\r\n" (some oauthA) exchangeFail =
      ⟨[], some (Page.failure "Invalid request"), [], none, 1⟩ :=
  (claim4_invalid_path_clears "GET /favicon.ico HTTP/1.1\r\n"
    "GET /favicon.ico HTTP/1.1" "GET" "/favicon.ico" ["HTTP/1.1"]
    (some oauthA) none exchangeFail (by decide) (by decide) (by decide)).1

/-- Counterexample to claim C4 as stated: after an invalid-path request
the stored pending request is NOT unchanged — the worker falls through to
the final clear, so the store is empty (and the clear ran once, not zero
times). -/
theorem claim4_counterexample :
    ¬ ((workerThread "GET /favicon.ico HTTP/1.1\r\n" (some oauthA)
          exchangeFail).store = some oauthA ∧
       (workerThread "GET /favicon.ico HTTP/1.1\r\n" (some oauthA)
          exchangeFail).clears = 0) := by
  decide

/-- When the exchange oracle never succeeds, no branch of the callback
handler can emit an oauth-token notification. -/
theorem handleCallback_no_token_of_error (query : String)
    (store : Option OAuthState)
    (exchange : ExchangeCall → Except String TokenResponse)
    (herr : ∀ c, ∃ e, exchange c = .error e) :
    ∀ p : TokenPayload,
      Event.oauthToken p ∉ (handleCallback query store exchange).events := by
  intro p
  cases store with
  | none => simp [handleCallback]
  | some oauth =>
    by_cases hst : getParam (parseQuery query) "state" = some oauth.state
    · cases hcode : getParam (parseQuery query) "code" with
      | none =>
          cases herr2 : getParam (parseQuery query) "error" with
          | none => simp [handleCallback, hst, hcode, herr2]
          | some err => simp [handleCallback, hst, hcode, herr2]
      | some code =>
          obtain ⟨e, he⟩ := herr (mkCall oauth code)
          simp [handleCallback, hst, hcode, he]
    · simp [handleCallback, hst]

/-- Claim C6: a non-2xx token-endpoint response makes
`exchange_code_for_tokens` return an error built from the HTTP status
alone — the same error for every response body, so the body is not
surfaced — and a flow whose exchange hits such a response emits no
oauth-token notification. -/
theorem claim6_non2xx_status (status : Nat)
    (hstatus : statusIsSuccess status = false)
    (code code_verifier client_id client_secret redirect_uri body : String)
    (decode : String → Option TokenResponse)
    (query : String) (store : Option OAuthState) :
    exchange_code_for_tokens code code_verifier client_id client_secret
        redirect_uri (fun _ => HttpResult.response status body) decode =
      Except.error ("Token exchange failed: " ++ toString status) ∧
    ∀ p : TokenPayload,
      Event.oauthToken p ∉ (handleCallback query store
        (fun c => exchange_code_for_tokens c.code c.code_verifier c.client_id
          c.client_secret c.redirect_uri
          (fun _ => HttpResult.response status body) decode)).events := by
  constructor
  · simp [exchange_code_for_tokens, hstatus]
  · exact handleCallback_no_token_of_error _ _ _
      (fun c => ⟨"Token exchange failed: " ++ toString status,
        by simp [exchange_code_for_tokens, hstatus]⟩)

/-- Witness for claim C6 at HTTP status 400. -/
theorem claim6_non2xx_status_witness :
    statusIsSuccess 400 = false ∧
    exchange_code_for_tokens "xyz" "verifier1" "client1" "" "uri"
        (fun _ => HttpResult.response 400 "bad request body") (fun _ => none) =
      Except.error ("Token exchange failed: " ++ toString 400) :=
  ⟨by decide,
   (claim6_non2xx_status 400 (by decide) "xyz" "verifier1" "client1" "" "uri"
      "bad request body" (fun _ => none) "code=xyz&state=abc" (some oauthA)).1⟩

/- ---------------- Splitter correctness lemmas ---------------- -/

/-- Spec-side inverse of the splitter: interleave the pieces with the
separator. -/
def joinChar (sep : Char) : List (List Char) → List Char
  | [] => []
  | [e] => e
  | e :: rest => e ++ sep :: joinChar sep rest

theorem joinChar_cons (sep : Char) (x : List Char) (l : List (List Char))
    (h : l ≠ []) : joinChar sep (x :: l) = x ++ sep :: joinChar sep l := by
  cases l with
  | nil => exact absurd rfl h
  | cons y ys => rfl

theorem splitOnCharAux_ne_nil (sep : Char) (cs : List Char) :
    ∀ acc, splitOnCharAux sep cs acc ≠ [] := by
  induction cs with
  | nil => intro acc; simp [splitOnCharAux]
  | cons c rest ih =>
    intro acc
    simp only [splitOnCharAux]
    split
    · simp
    · exact ih _

theorem joinChar_splitOnCharAux (sep : Char) (cs : List Char) :
    ∀ acc, joinChar sep (splitOnCharAux sep cs acc) = acc.reverse ++ cs := by
  induction cs with
  | nil => intro acc; simp [splitOnCharAux, joinChar]
  | cons c rest ih =>
    intro acc
    simp only [splitOnCharAux]
    split
    next hc =>
      rw [joinChar_cons sep _ _ (splitOnCharAux_ne_nil sep rest []),
        ih [], hc]
      simp
    next hc =>
      rw [ih (c :: acc)]
      simp

/-- Splitting on a separator and joining the pieces back with that
separator reconstructs the input: the pieces really are the
separator-delimited entries. -/
theorem splitOnChar_join (sep : Char) (cs : List Char) :
    joinChar sep (splitOnChar sep cs) = cs := by
  simpa using joinChar_splitOnCharAux sep cs []

theorem splitOnCharAux_mem_not_sep (sep : Char) (cs : List Char) :
    ∀ acc, sep ∉ acc → ∀ e ∈ splitOnCharAux sep cs acc, sep ∉ e := by
  induction cs with
  | nil =>
    intro acc hacc e he
    simp only [splitOnCharAux, List.mem_singleton] at he
    subst he
    simpa using hacc
  | cons c rest ih =>
    intro acc hacc e he
    simp only [splitOnCharAux] at he
    by_cases hc : c = sep
    · rw [if_pos hc] at he
      rcases List.mem_cons.mp he with h1 | h2
      · subst h1; simpa using hacc
      · exact ih [] (by simp) e h2
    · rw [if_neg hc] at he
      refine ih (c :: acc) ?_ e he
      intro hmem
      rcases List.mem_cons.mp hmem with h1 | h2
      · exact hc h1.symm
      · exact hacc h2

/-- No piece produced by the splitter contains the separator. -/
theorem splitOnChar_mem_not_sep (sep : Char) (cs : List Char) :
    ∀ e ∈ splitOnChar sep cs, sep ∉ e :=
  splitOnCharAux_mem_not_sep sep cs [] (by simp)

theorem splitOnCharAux_no_sep (sep : Char) (cs : List Char) :
    ∀ acc, sep ∉ cs → splitOnCharAux sep cs acc = [acc.reverse ++ cs] := by
  induction cs with
  | nil => intro acc _; simp [splitOnCharAux]
  | cons c rest ih =>
    intro acc h
    have hc : c ≠ sep := fun hh => h (hh ▸ List.mem_cons_self c rest)
    have h2 : sep ∉ rest := fun hh => h (List.mem_cons_of_mem c hh)
    simp [splitOnCharAux, hc, ih (c :: acc) h2]

/-- Splitting a key/value entry at the FIRST separator occurrence: with
no separator in the key, the key and the whole remainder come back. -/
theorem splitFirstChars_append (sep : Char) (k v : List Char)
    (hk : sep ∉ k) : splitFirstChars sep (k ++ sep :: v) = some (k, v) := by
  induction k with
  | nil => simp [splitFirstChars]
  | cons c k2 ih =>
    have hc : c ≠ sep := fun hh => hk (hh ▸ List.mem_cons_self c k2)
    have hk2 : sep ∉ k2 := fun hh => hk (List.mem_cons_of_mem c hh)
    simp [splitFirstChars, hc, ih hk2]

/-- An entry without the separator is not split: the first-occurrence
splitter returns none, and the query parser drops the entry. -/
theorem splitFirstChars_none (sep : Char) (e : List Char)
    (he : sep ∉ e) : splitFirstChars sep e = none := by
  induction e with
  | nil => rfl
  | cons c e2 ih =>
    have hc : c ≠ sep := fun hh => he (hh ▸ List.mem_cons_self c e2)
    have he2 : sep ∉ e2 := fun hh => he (List.mem_cons_of_mem c hh)
    simp [splitFirstChars, hc, ih he2]

/-- Claim C8: the query parser works by splitting the query into the
amp-separated entries (the pieces contain no separator and joining them
back with the separator reconstructs the query), splitting each entry at
its FIRST equals sign into a key/value pair, and dropping every entry
that contains no equals sign. -/
theorem claim8_query_parsing (q : String) (k v e2 : List Char)
    (hk : ('=' : Char) ∉ k) (he : ('=' : Char) ∉ e2) :
    parseQuery q =
      ((splitOnChar '&' q.data).map String.mk).filterMap entryToPair ∧
    (∀ piece ∈ splitOnChar '&' q.data, ('&' : Char) ∉ piece) ∧
    joinChar '&' (splitOnChar '&' q.data) = q.data ∧
    splitFirstChars '=' (k ++ '=' :: v) = some (k, v) ∧
    splitFirstChars '=' e2 = none :=
  ⟨rfl, splitOnChar_mem_not_sep '&' q.data, splitOnChar_join '&' q.data,
   splitFirstChars_append '=' k v hk, splitFirstChars_none '=' e2 he⟩

/-- Witness for claim C8 on a concrete query with one droppable entry. -/
theorem claim8_query_parsing_witness :
    joinChar '&' (splitOnChar '&' "code=xyz&flag&state=abc".data) =
      "code=xyz&flag&state=abc".data ∧
    splitFirstChars '=' (['s'] ++ '=' :: ['1']) = some (['s'], ['1']) ∧
    splitFirstChars '=' ['f', 'l', 'a', 'g'] = none :=
  ⟨(claim8_query_parsing "code=xyz&flag&state=abc" ['s'] ['1'] ['f', 'l', 'a', 'g']
      (by decide) (by decide)).2.2.1,
   (claim8_query_parsing "code=xyz&flag&state=abc" ['s'] ['1'] ['f', 'l', 'a', 'g']
      (by decide) (by decide)).2.2.2.1,
   (claim8_query_parsing "code=xyz&flag&state=abc" ['s'] ['1'] ['f', 'l', 'a', 'g']
      (by decide) (by decide)).2.2.2.2⟩

/-- Claim C10: parsed keys and values are the raw substrings of the query
with no percent-decoding (a lone entry k=v parses to exactly (k, v)); a
state value that arrives percent-encoded is therefore compared as
encoded, and against a stored state holding the decoded characters the
comparison fails and the flow ends in a State mismatch. -/
theorem claim10_no_percent_decoding (k v : List Char)
    (hk : ('=' : Char) ∉ k) (hkv : ('&' : Char) ∉ k ++ '=' :: v)
    (cv cid csec ru : String)
    (exchange : ExchangeCall → Except String TokenResponse) :
    getParam (parseQuery (String.mk (k ++ '=' :: v))) (String.mk k) =
      some (String.mk v) ∧
    getParam (parseQuery "code=xyz&state=a%20b") "state" = some "a%20b" ∧
    ("a%20b" : String) ≠ "a b" ∧
    (handleCallback "code=xyz&state=a%20b"
        (some ⟨"a b", cv, cid, csec, ru⟩) exchange).events =
      [Event.oauthError "State mismatch"] := by
  refine ⟨?_, by decide, by decide, ?_⟩
  · have hs : splitOnChar '&' (String.mk (k ++ '=' :: v)).data =
        [k ++ '=' :: v] := by
      simpa using splitOnCharAux_no_sep '&' (k ++ '=' :: v) [] hkv
    have hp : parseQuery (String.mk (k ++ '=' :: v)) =
        [(String.mk k, String.mk v)] := by
      unfold parseQuery
      rw [hs]
      simp [entryToPair, splitFirstChars_append '=' k v hk]
    rw [hp]
    simp [getParam]
  · simp only [handleCallback]
    rw [if_pos (by decide)]

/-- Witness for claim C10 on a concrete single-entry query. -/
theorem claim10_no_percent_decoding_witness :
    getParam (parseQuery (String.mk (['s'] ++ '=' :: ['1']))) (String.mk ['s']) =
      some (String.mk ['1']) :=
  (claim10_no_percent_decoding ['s'] ['1'] (by decide) (by decide)
    "verifier1" "client1" "" "uri" exchangeFail).1

end MokuroOAuth
